import Mathlib

/-!
Shallow embedding of `lib/sbs_sklearn.py` (present in the repository as the
checkpoint copy `src/lib/.ipynb_checkpoints/sbs_sklearn-checkpoint.py`).

The file models the two functions the claims are about:

* `train_n_test` — the k-fold cross-validation loop.  Pandas/NumPy values are
  modelled with `Int`; a `DataFrame` is an ordered list of named columns.
  The injected model object is a record carrying explicit state (Python's
  `model.fit` mutates the object in place; here the state is threaded and the
  final state is returned).  `sklearn.model_selection.KFold` is embedded with
  its documented validation (`n_splits` must be an integer at least 2 at
  construction, and at most the number of samples at `split` time) and its
  documented splitting scheme (with `shuffle=True` the row indices are
  permuted, the permutation is taken here as an explicit oracle argument
  `perm`; test sets are consecutive chunks of the permuted indices, the first
  `n % k` chunks of size `n / k + 1` and the rest of size `n / k`; train
  indices are the sorted complement).  Python exceptions become an `Except`
  whose error value also carries the model state at the moment the exception
  propagates, so "no partial work" is expressible.  Logging is informational
  only; the list of fold indices at which a progress notice is emitted is
  returned so that logging behaviour is observable.  The `concise` flag only
  changes the text of the notice, not when one is emitted, so it is elided.
  The defaults `model=LinearRegression()` and `metric=mean_squared_error`
  are irrelevant to every claim; the embedding takes model and metric as
  explicit arguments.

* `build_polynomial_dataframe` — the polynomial feature expansion.  Pandas
  column assignment `df[name] = series` overwrites an existing column in
  place (keeping its position) and otherwise appends a new column at the end,
  which is how `DataFrame.setCol` below behaves.
-/

/-- A pandas `DataFrame`: an ordered list of named `Int` columns. -/
structure DataFrame where
  cols : List (String × List Int)
deriving Repr, DecidableEq

/-- The column names, in order. -/
def DataFrame.columns (df : DataFrame) : List String :=
  df.cols.map Prod.fst

/-- The values of a named column (`[]` when absent). -/
def DataFrame.getCol (df : DataFrame) (name : String) : List Int :=
  match df.cols.find? (fun p => p.1 = name) with
  | some p => p.2
  | none => []

/-- Number of rows: the length of the first column (0 for an empty frame). -/
def DataFrame.nrows (df : DataFrame) : Nat :=
  match df.cols with
  | [] => 0
  | c :: _ => c.2.length

/-- `df[name] = vals`: overwrite an existing column in place, else append. -/
def DataFrame.setCol (df : DataFrame) (name : String) (vals : List Int) : DataFrame :=
  if df.cols.any (fun p => p.1 = name) then
    ⟨df.cols.map (fun p => if p.1 = name then (name, vals) else p)⟩
  else
    ⟨df.cols ++ [(name, vals)]⟩

/-- `itertools.combinations_with_replacement(l, n)`, in itertools order: a
combination of size `n + 1` is a head `x` taken at some position of `l`
followed by a combination of size `n` drawn from the suffix of `l` starting at
that position; heads are enumerated left to right. -/
def cwr {α : Type} : Nat → List α → List (List α)
  | 0, _ => [[]]
  | n + 1, l =>
    l.tails.flatMap
      (fun s =>
        match s with
        | [] => []
        | x :: xs => (cwr n (x :: xs)).map (fun t => x :: t))

/-- `data[list(tpl)].prod(axis=1)`: the row-wise product of the columns named
in `tpl`, over the rows of `data`. -/
def rowProd (data : DataFrame) (tpl : List String) : List Int :=
  (List.range data.nrows).map
    (fun i => tpl.foldl (fun acc c => acc * (data.getCol c).getD i 0) 1)

/-- Python `range(1, der + 1)` for an `int` argument `der`:
`[1, …, der]`, empty when `der ≤ 0`. -/
def range1To (der : Int) : List Nat :=
  (List.range der.toNat).map (fun i => i + 1)

/-- `build_polynomial_dataframe(data, der)` from the source:

    poly_data = data.copy()
    for o in range(1, der + 1):
        for tpl in itertools.combinations_with_replacement(data.columns, o):
            name = "_x_".join(tpl)
            poly_data[name] = data[list(tpl)].prod(axis=1)
    return poly_data

Note the products and the column names are always taken from the original
`data`, not from the accumulator. -/
def build_polynomial_dataframe (data : DataFrame) (der : Int) : DataFrame :=
  (range1To der).foldl
    (fun poly o =>
      (cwr o data.columns).foldl
        (fun poly tpl =>
          poly.setCol (String.intercalate "_x_" tpl) (rowProd data tpl))
        poly)
    data

/-- `X.values`: the row-major matrix of the frame (row `i` lists the `i`-th
entry of each column). -/
def DataFrame.values (df : DataFrame) : List (List Int) :=
  (List.range df.nrows).map (fun i => df.cols.map (fun c => c.2.getD i 0))

/-- The Python value passed as `n_folds`: either an `int`, or a value of any
other Python type (float, string, …), which `type(n_folds) == int` rejects. -/
inductive FoldArg where
  | int : Int → FoldArg
  | nonInt : FoldArg
deriving Repr, DecidableEq

/-- The Python exceptions `train_n_test` can raise: a failed `assert`
(`AssertionError`), a `ValueError` from `KFold` validation, and
`ZeroDivisionError` from `%` with zero divisor. -/
inductive PyError where
  | assertionError : PyError
  | valueError : PyError
  | zeroDivisionError : PyError
deriving Repr, DecidableEq

/-- Python `a % b` on ints: raises `ZeroDivisionError` when `b = 0`; otherwise
for a non-negative `a` it agrees with `Int.emod` (both are `0` exactly when
`b` divides `a`, which is all the source uses the result for). -/
def pyMod (a b : Int) : Except PyError Int :=
  if b = 0 then .error .zeroDivisionError else .ok (a % b)

/-- `update_frequency = update_frequency or len(y) - 1`: Python's `or` takes
the right operand when the left is `None` *or* `0` (both falsy). -/
def effective_update_frequency (update_frequency : Option Int) (ylen : Nat) : Int :=
  match update_frequency with
  | none => (ylen : Int) - 1
  | some v => if v = 0 then (ylen : Int) - 1 else v

/-- An injected model object: explicit mutable state `σ`, a `fit` step mapping
the current state and the training rows/targets to the post-fit state, and a
`predict` function reading the state. -/
structure Model (σ : Type) where
  state : σ
  fit : σ → List (List Int) → List Int → σ
  predict : σ → List (List Int) → List Int

/-- A metric: `(y_true, y_predicted) ↦ score`. -/
def Metric : Type := List Int → List Int → Int

/-- `Xm[idxs]` / `y[idxs]`: select rows by index list. -/
def selectRows (Xm : List (List Int)) (idxs : List Nat) : List (List Int) :=
  idxs.map (fun i => Xm.getD i [])

/-- `y[idxs]`: select entries by index list. -/
def selectIdx (y : List Int) (idxs : List Nat) : List Int :=
  idxs.map (fun i => y.getD i 0)

/-- sklearn `KFold` fold sizes on `n` samples with `k` splits: the first
`n % k` folds have `n / k + 1` test rows, the rest `n / k`. -/
def foldSizes (n k : Nat) : List Nat :=
  (List.range k).map (fun i => n / k + if i < n % k then 1 else 0)

/-- Split a list into consecutive chunks of the given sizes. -/
def chunksBy : List Nat → List Nat → List (List Nat)
  | _, [] => []
  | l, s :: rest => l.take s :: chunksBy (l.drop s) rest

/-- `KFold(n_splits=k, shuffle=True).split` on `n` rows, with the shuffled
index order given by the oracle `perm`: each fold is a `(train, test)` pair
where the test sets are the consecutive chunks of `perm` by `foldSizes`, and
the train indices are the sorted complement of the test set. -/
def kfoldSplit (perm : List Nat) (n k : Nat) : List (List Nat × List Nat) :=
  (chunksBy perm (foldSizes n k)).map
    (fun test => ((List.range n).filter (fun i => ¬ test.contains i), test))

/-- The fold loop of `train_n_test`.  Accumulates the score list, the model
state, and the fold indices at which a progress notice was logged.  Each
iteration: optionally swap train/test, evaluate `len(scores) %
update_frequency` for the logging test (raising `ZeroDivisionError` when the
frequency is zero), fit the model on the train rows, score the metric on the
test rows using the freshly fitted state, and append the score. -/
def tnt_loop {σ : Type} (model : Model σ) (metric : Metric) (uf : Int)
    (train_on_minority : Bool) (Xm : List (List Int)) (y : List Int) :
    List (List Nat × List Nat) → List Int → σ → List Nat →
    Except (PyError × σ) (List Int × σ × List Nat)
  | [], scores, st, logs => .ok (scores, st, logs)
  | f :: rest, scores, st, logs =>
    let tt := if train_on_minority then (f.2, f.1) else f
    match pyMod (scores.length : Int) uf with
    | .error e => .error (e, st)
    | .ok m =>
      let logs' := if m = 0 then logs ++ [scores.length] else logs
      let st' := model.fit st (selectRows Xm tt.1) (selectIdx y tt.1)
      let score := metric (selectIdx y tt.2) (model.predict st' (selectRows Xm tt.2))
      tnt_loop model metric uf train_on_minority Xm y rest (scores ++ [score]) st' logs'

/-- `train_n_test(X, y, n_folds, update_frequency, model, metric,
train_on_minority)` from the source.  In order: the `or`-default of
`update_frequency`; `Xm = X.values`; the assert `type(n_folds) == int`;
`KFold` construction (`ValueError` unless `n_splits ≥ 2`); `kfold.split`
(`ValueError` when `n_splits` exceeds the number of samples); then the fold
loop.  The result carries the scores, the final model state and the logged
fold indices; an error carries the model state at the time the exception
propagates (the initial state for every validation error, since no fit has
run). -/
def train_n_test {σ : Type} (X : DataFrame) (y : List Int) (n_folds : FoldArg)
    (update_frequency : Option Int) (model : Model σ) (metric : Metric)
    (train_on_minority : Bool) (perm : List Nat) :
    Except (PyError × σ) (List Int × σ × List Nat) :=
  let uf := effective_update_frequency update_frequency y.length
  let Xm := X.values
  match n_folds with
  | .nonInt => .error (.assertionError, model.state)
  | .int k =>
    if k < 2 then .error (.valueError, model.state)
    else if (y.length : Int) < k then .error (.valueError, model.state)
    else
      tnt_loop model metric uf train_on_minority Xm y
        (kfoldSplit perm y.length k.toNat) [] model.state []

/-! ### Characterizations of the fold loop -/

/-- The per-fold score list: one score per fold, in fold order, threading the
model state through the fits exactly as the loop does. -/
def tnt_scores_of {σ : Type} (model : Model σ) (metric : Metric)
    (train_on_minority : Bool) (Xm : List (List Int)) (y : List Int) :
    List (List Nat × List Nat) → σ → List Int
  | [], _ => []
  | f :: rest, st =>
    let tt := if train_on_minority then (f.2, f.1) else f
    let st' := model.fit st (selectRows Xm tt.1) (selectIdx y tt.1)
    metric (selectIdx y tt.2) (model.predict st' (selectRows Xm tt.2)) ::
      tnt_scores_of model metric train_on_minority Xm y rest st'

/-- The model state after fitting fold by fold. -/
def tnt_fit_states {σ : Type} (model : Model σ) (train_on_minority : Bool)
    (Xm : List (List Int)) (y : List Int)
    (folds : List (List Nat × List Nat)) (st : σ) : σ :=
  folds.foldl
    (fun s f =>
      let tt := if train_on_minority then (f.2, f.1) else f
      model.fit s (selectRows Xm tt.1) (selectIdx y tt.1))
    st

/-! ### Concrete fixtures

A tiny injected model whose state counts how many times `fit` has run (any
object with `fit`/`predict` methods is a legal argument to `train_n_test`),
a simple squared-error metric, and small feature/target tables. -/

def cModel : Model Nat :=
  ⟨0, fun st _ _ => st + 1, fun _ rows => rows.map (fun _ => 0)⟩

def cMetric : Metric :=
  fun a b => (a.zipWith (fun x y => (x - y) ^ 2) b).foldl (· + ·) 0

def cX4 : DataFrame := ⟨[("f", [10, 20, 30, 40])]⟩

def cy4 : List Int := [1, 2, 3, 4]

def cX6 : DataFrame := ⟨[("f", [10, 20, 30, 40, 50, 60])]⟩

def cy6 : List Int := [1, 2, 3, 4, 5, 6]

def dfAB : DataFrame := ⟨[("a", [1, 2, 3]), ("b", [4, 5, 6])]⟩

/-! ### Helper lemmas -/

theorem tnt_scores_of_length {σ : Type} (model : Model σ) (metric : Metric)
    (sw : Bool) (Xm : List (List Int)) (y : List Int)
    (folds : List (List Nat × List Nat)) (st : σ) :
    (tnt_scores_of model metric sw Xm y folds st).length = folds.length := by
  induction folds generalizing st with
  | nil => rfl
  | cons f rest ih => simp [tnt_scores_of, ih]

theorem chunksBy_length (sizes : List Nat) : ∀ l, (chunksBy l sizes).length = sizes.length := by
  induction sizes with
  | nil => intro l; rfl
  | cons s rest ih => intro l; simp [chunksBy, ih]

theorem kfoldSplit_length (perm : List Nat) (n k : Nat) :
    (kfoldSplit perm n k).length = k := by
  simp [kfoldSplit, chunksBy_length, foldSizes]

/-- When the update frequency is nonzero the loop cannot raise: it returns the
characterized score list and final model state (and some log trace). -/
theorem tnt_loop_ok_char {σ : Type} (model : Model σ) (metric : Metric)
    (uf : Int) (sw : Bool) (Xm : List (List Int)) (y : List Int)
    (h : uf ≠ 0) :
    ∀ (folds : List (List Nat × List Nat)) (scores : List Int) (st : σ) (logs : List Nat),
    ∃ logs', tnt_loop model metric uf sw Xm y folds scores st logs =
      .ok (scores ++ tnt_scores_of model metric sw Xm y folds st,
           tnt_fit_states model sw Xm y folds st, logs') := by
  intro folds
  induction folds with
  | nil => intro scores st logs; exact ⟨logs, by simp [tnt_loop, tnt_scores_of, tnt_fit_states]⟩
  | cons f rest ih =>
    intro scores st logs
    simp only [tnt_loop, pyMod, if_neg h]
    obtain ⟨logs', hE⟩ := ih (scores ++ [_]) _
      (if (scores.length : Int) % uf = 0 then logs ++ [scores.length] else logs)
    refine ⟨logs', ?_⟩
    rw [hE]
    simp [tnt_scores_of, tnt_fit_states]

/-- Whenever the loop returns normally, the final model state is the fold of
the per-fold fit steps over the processed folds. -/
theorem tnt_loop_state_of_ok {σ : Type} (model : Model σ) (metric : Metric)
    (uf : Int) (sw : Bool) (Xm : List (List Int)) (y : List Int) :
    ∀ (folds : List (List Nat × List Nat)) (scores : List Int) (st : σ) (logs : List Nat)
      (s' : List Int) (st' : σ) (l' : List Nat),
    tnt_loop model metric uf sw Xm y folds scores st logs = .ok (s', st', l') →
    st' = tnt_fit_states model sw Xm y folds st := by
  intro folds
  induction folds with
  | nil =>
    intro scores st logs s' st' l' hok
    simp [tnt_loop] at hok
    simp [tnt_fit_states, hok.2.1.symm]
  | cons f rest ih =>
    intro scores st logs s' st' l' hok
    by_cases h0 : uf = 0
    · simp [tnt_loop, pyMod, h0] at hok
    · simp only [tnt_loop, pyMod, if_neg h0] at hok
      have := ih _ _ _ _ _ _ hok
      simpa [tnt_fit_states] using this

theorem effective_update_frequency_ne_zero (u : Option Int) (ylen : Nat)
    (h : 2 ≤ ylen) : effective_update_frequency u ylen ≠ 0 := by
  cases u with
  | none => simp [effective_update_frequency]; omega
  | some v =>
    by_cases hv : v = 0
    · simp [effective_update_frequency, hv]; omega
    · simp [effective_update_frequency, hv]

/-- `train_n_test` never raises `ZeroDivisionError`: the `or`-default turns a
zero `update_frequency` into `len(y) - 1`, and the loop only runs after the
`KFold` checks have forced `2 ≤ n_splits ≤ len(y)`, so the modulo's divisor is
never zero. -/
theorem train_n_test_no_zero_div {σ : Type} (X : DataFrame) (y : List Int)
    (nf : FoldArg) (u : Option Int) (model : Model σ) (metric : Metric)
    (sw : Bool) (perm : List Nat) (st : σ) :
    train_n_test X y nf u model metric sw perm ≠ .error (.zeroDivisionError, st) := by
  cases nf with
  | nonInt => simp [train_n_test]
  | int k =>
    simp only [train_n_test]
    by_cases hk : k < 2
    · simp [hk]
    · by_cases hl : (y.length : Int) < k
      · simp [hk, hl]
      · simp only [if_neg hk, if_neg hl]
        have h2 : 2 ≤ y.length := by omega
        obtain ⟨logs', hE⟩ := tnt_loop_ok_char model metric _ sw X.values y
          (effective_update_frequency_ne_zero u y.length h2)
          (kfoldSplit perm y.length k.toNat) [] model.state []
        rw [hE]
        simp

/-- The generated column for the pair `(a, b)` is the elementwise product of
the two source columns (when the columns are row-aligned). -/
theorem rowProd_ab (va vb : List Int) (h : va.length = vb.length) :
    rowProd ⟨[("a", va), ("b", vb)]⟩ ["a", "b"] = List.zipWith (fun x y => x * y) va vb := by
  have hn : (DataFrame.nrows ⟨[("a", va), ("b", vb)]⟩) = va.length := rfl
  have hga : (DataFrame.getCol ⟨[("a", va), ("b", vb)]⟩ "a") = va := rfl
  have hgb : (DataFrame.getCol ⟨[("a", va), ("b", vb)]⟩ "b") = vb := rfl
  apply List.ext_getElem
  · simp [rowProd, hn, h]
  · intro i h1 h2
    simp only [rowProd, hn, hga, hgb, List.getElem_map, List.getElem_range,
      List.getElem_zipWith, List.foldl]
    have hi : i < va.length := by simpa [rowProd, hn] using h1
    rw [List.getD_eq_getElem va 0 hi, List.getD_eq_getElem vb 0 (h ▸ hi)]
    ring

/-! ### Claims -/

/-- Claim C1, counterexample: with six rows and `n_folds = 3` and
`update_frequency` omitted, the source line `update_frequency =
update_frequency or len(y) - 1` makes the divisor `5 = len(y) - 1`, not
`2 = n_folds - 1`; accordingly a progress notice is logged only at fold `0`
(trace `[0]`), whereas a frequency of `n_folds - 1 = 2` would log at folds
`0` and `2`. -/
theorem c1_counterexample :
    train_n_test cX6 cy6 (.int 3) none cModel cMetric false (List.range 6)
      = .ok ([5, 25, 61], 3, [0]) ∧
    effective_update_frequency none cy6.length = 5 ∧ ((5 : Int) ≠ 3 - 1) :=
  ⟨rfl, rfl, by decide⟩

/-- Claim C1, amended: when `update_frequency` is omitted (`None`) — or passed
as `0`, which Python's `or` also treats as falsy — it defaults to
`len(y) - 1` (the number of rows minus one), not to `foldCount - 1`. -/
theorem c1_default_update_frequency (u : Option Int) (ylen : Nat)
    (h : u = none ∨ u = some 0) :
    effective_update_frequency u ylen = (ylen : Int) - 1 := by
  rcases h with h | h <;> simp [h, effective_update_frequency]

/-- Claim C1, witness for the amended theorem at `ylen = 6`. -/
theorem c1_default_update_frequency_witness :
    effective_update_frequency none 6 = (6 : Int) - 1 :=
  c1_default_update_frequency none 6 (Or.inl rfl)

/-- Claim C2 (confirmed): `evaluate` with `foldCount = 0` fails at once with a
`ValueError` from `KFold` validation (`0` is an `int`, so the assert passes),
and with a non-integer `foldCount` it fails at once with the
`AssertionError` of `assert type(n_folds) == int`; both are the
InvalidArgument condition of the spec's taxonomy.  In both cases the error
carries the model's initial state: no fold was processed, no model fitted, no
score computed. -/
theorem c2_invalid_fold_count {σ : Type} (X : DataFrame) (y : List Int)
    (u : Option Int) (model : Model σ) (metric : Metric) (sw : Bool) (perm : List Nat) :
    train_n_test X y (.int 0) u model metric sw perm = .error (.valueError, model.state) ∧
    train_n_test X y .nonInt u model metric sw perm = .error (.assertionError, model.state) :=
  ⟨rfl, rfl⟩

/-- Claim C3 (confirmed): for every fold count `k` accepted by the splitter
(`2 ≤ k`, within the spec's "valid foldCount") and row-aligned data with at
least `k` rows, `evaluate` returns normally with a score list of length
exactly `k`, equal to the per-fold score list in fold order (one score
appended per fold). -/
theorem c3_score_list_length {σ : Type} (X : DataFrame) (y : List Int) (k : Int)
    (u : Option Int) (model : Model σ) (metric : Metric) (sw : Bool) (perm : List Nat)
    (hk : 2 ≤ k) (hl : k ≤ (y.length : Int)) :
    ∃ scores st logs,
      train_n_test X y (.int k) u model metric sw perm = .ok (scores, st, logs) ∧
      scores = tnt_scores_of model metric sw X.values y
        (kfoldSplit perm y.length k.toNat) model.state ∧
      (scores.length : Int) = k := by
  have h2 : 2 ≤ y.length := by omega
  obtain ⟨logs', hE⟩ := tnt_loop_ok_char model metric _ sw X.values y
    (effective_update_frequency_ne_zero u y.length h2)
    (kfoldSplit perm y.length k.toNat) [] model.state []
  refine ⟨tnt_scores_of model metric sw X.values y (kfoldSplit perm y.length k.toNat) model.state,
    tnt_fit_states model sw X.values y (kfoldSplit perm y.length k.toNat) model.state,
    logs', ?_, rfl, ?_⟩
  · simp only [train_n_test, if_neg (by omega : ¬ k < 2),
      if_neg (by omega : ¬ (y.length : Int) < k)]
    exact hE
  · rw [tnt_scores_of_length, kfoldSplit_length]
    exact Int.toNat_of_nonneg (by omega)

/-- Claim C3, witness: `k = 2` on four rows. -/
theorem c3_witness :
    (2 : Int) ≤ 2 ∧ (2 : Int) ≤ (cy4.length : Int) ∧
    (∃ scores st logs,
      train_n_test cX4 cy4 (.int 2) none cModel cMetric false (List.range 4)
        = .ok (scores, st, logs) ∧
      scores = tnt_scores_of cModel cMetric false cX4.values cy4
        (kfoldSplit (List.range 4) cy4.length (Int.toNat 2)) cModel.state ∧
      (scores.length : Int) = 2) :=
  ⟨by decide, by decide,
   c3_score_list_length cX4 cy4 2 none cModel cMetric false (List.range 4)
     (by decide) (by decide)⟩

/-- Claim C4, counterexample: no call of `evaluate` with `update_frequency =
0` ever evaluates the modulo with a zero divisor — the claimed input does not
exist.  Python's `or` treats `0` as falsy, so `update_frequency or len(y) -
1` replaces `0` with `len(y) - 1`, which is nonzero whenever the `KFold`
checks let the loop run. -/
theorem c4_counterexample :
    ¬ ∃ (σ : Type) (X : DataFrame) (y : List Int) (nf : FoldArg) (model : Model σ)
        (metric : Metric) (sw : Bool) (perm : List Nat) (st : σ),
      train_n_test X y nf (some 0) model metric sw perm
        = .error (.zeroDivisionError, st) := by
  rintro ⟨σ, X, y, nf, model, metric, sw, perm, st, h⟩
  exact train_n_test_no_zero_div X y nf (some 0) model metric sw perm st h

/-- Claim C4, amended: `update_frequency = 0` is coerced by the `or`-default
to `len(y) - 1`, so the modulo is never evaluated with a zero divisor and
`evaluate` never raises `ZeroDivisionError`. -/
theorem c4_update_frequency_zero_coerced {σ : Type} (X : DataFrame) (y : List Int)
    (nf : FoldArg) (model : Model σ) (metric : Metric) (sw : Bool) (perm : List Nat)
    (st : σ) :
    effective_update_frequency (some 0) y.length = (y.length : Int) - 1 ∧
    train_n_test X y nf (some 0) model metric sw perm ≠ .error (.zeroDivisionError, st) :=
  ⟨by simp [effective_update_frequency],
   train_n_test_no_zero_div X y nf (some 0) model metric sw perm st⟩

/-- Claim C4, witness for the amended theorem at a concrete call. -/
theorem c4_update_frequency_zero_coerced_witness :
    effective_update_frequency (some 0) cy4.length = (cy4.length : Int) - 1 ∧
    train_n_test cX4 cy4 (.int 2) (some 0) cModel cMetric false (List.range 4)
      ≠ .error (.zeroDivisionError, 0) :=
  c4_update_frequency_zero_coerced cX4 cy4 (.int 2) cModel cMetric false (List.range 4) 0

/-- Claim C5, counterexample: `expand` with `maxDegree = -1` does not fail —
the source has no degree check, `range(1, der + 1)` is simply empty for a
negative `der`, and the table comes back unchanged. -/
theorem c5_counterexample :
    build_polynomial_dataframe dfAB (-1) = dfAB := rfl

/-- Claim C5, amended: for every table and every negative `maxDegree`,
`expand` raises no error and performs no work at all: it returns (a copy of)
the table unchanged. -/
theorem c5_negative_degree_no_op (df : DataFrame) (der : Int) (h : der < 0) :
    build_polynomial_dataframe df der = df := by
  have h0 : der.toNat = 0 := Int.toNat_eq_zero.mpr (le_of_lt h)
  simp [build_polynomial_dataframe, range1To, h0]

/-- Claim C5, witness for the amended theorem at `maxDegree = -1`. -/
theorem c5_negative_degree_no_op_witness :
    ((-1 : Int) < 0) ∧ build_polynomial_dataframe dfAB (-1) = dfAB :=
  ⟨by decide, c5_negative_degree_no_op dfAB (-1) (by decide)⟩

/-- Claim C6 (confirmed): on a table with columns `a, b` (row-aligned),
`expand(table, maxDegree=2)` produces exactly the columns
`a, b, a_x_a, a_x_b, b_x_b` — the degree-1 terms regenerate `a` and `b` in
place, and the degree-2 combinations with replacement add the three product
columns — with no duplicate names, and `a_x_b` is the elementwise product
`a * b`. -/
theorem c6_expand_degree_two (va vb : List Int) (h : va.length = vb.length) :
    (build_polynomial_dataframe ⟨[("a", va), ("b", vb)]⟩ 2).columns
      = ["a", "b", "a_x_a", "a_x_b", "b_x_b"] ∧
    (build_polynomial_dataframe ⟨[("a", va), ("b", vb)]⟩ 2).columns.Nodup ∧
    (build_polynomial_dataframe ⟨[("a", va), ("b", vb)]⟩ 2).getCol "a_x_b"
      = List.zipWith (fun x y => x * y) va vb := by
  have hcols : (build_polynomial_dataframe ⟨[("a", va), ("b", vb)]⟩ 2).cols
      = [("a", rowProd ⟨[("a", va), ("b", vb)]⟩ ["a"]),
         ("b", rowProd ⟨[("a", va), ("b", vb)]⟩ ["b"]),
         ("a_x_a", rowProd ⟨[("a", va), ("b", vb)]⟩ ["a", "a"]),
         ("a_x_b", rowProd ⟨[("a", va), ("b", vb)]⟩ ["a", "b"]),
         ("b_x_b", rowProd ⟨[("a", va), ("b", vb)]⟩ ["b", "b"])] := rfl
  refine ⟨?_, ?_, ?_⟩
  · simp [DataFrame.columns, hcols]
  · simp [DataFrame.columns, hcols]
  · have hg : (build_polynomial_dataframe ⟨[("a", va), ("b", vb)]⟩ 2).getCol "a_x_b"
        = rowProd ⟨[("a", va), ("b", vb)]⟩ ["a", "b"] := rfl
    rw [hg]
    exact rowProd_ab va vb h

/-- Claim C6, witness at concrete columns `a = [1,2,3]`, `b = [4,5,6]`. -/
theorem c6_expand_degree_two_witness :
    ([1, 2, 3] : List Int).length = ([4, 5, 6] : List Int).length ∧
    ((build_polynomial_dataframe ⟨[("a", [1, 2, 3]), ("b", [4, 5, 6])]⟩ 2).columns
      = ["a", "b", "a_x_a", "a_x_b", "b_x_b"] ∧
     (build_polynomial_dataframe ⟨[("a", [1, 2, 3]), ("b", [4, 5, 6])]⟩ 2).columns.Nodup ∧
     (build_polynomial_dataframe ⟨[("a", [1, 2, 3]), ("b", [4, 5, 6])]⟩ 2).getCol "a_x_b"
      = List.zipWith (fun x y => x * y) [1, 2, 3] [4, 5, 6]) :=
  ⟨rfl, c6_expand_degree_two [1, 2, 3] [4, 5, 6] rfl⟩

/-- Claim C7 (confirmed): on any fixed list of fold partitions, running the
fold loop with `train_on_minority = True` is exactly running it with
`train_on_minority = False` on the same partitions with train and test
exchanged: the model is fitted on each fold's test index set and scored on
its train index set — the complementary roles. -/
theorem c7_swap_train_test {σ : Type} (model : Model σ) (metric : Metric)
    (uf : Int) (Xm : List (List Int)) (y : List Int)
    (folds : List (List Nat × List Nat)) (scores : List Int) (st : σ) (logs : List Nat) :
    tnt_loop model metric uf true Xm y folds scores st logs =
    tnt_loop model metric uf false Xm y (folds.map Prod.swap) scores st logs := by
  induction folds generalizing scores st logs with
  | nil => rfl
  | cons f rest ih =>
    simp only [List.map, tnt_loop, Prod.swap]
    cases pyMod (scores.length : Int) uf with
    | error e => rfl
    | ok m => simp [ih]

/-- Claim C8 (confirmed): `expand(table, maxDegree=0)` is the identity —
`range(1, 1)` is empty, so no column is generated and the original columns
and values are returned untouched. -/
theorem c8_expand_degree_zero_identity (df : DataFrame) :
    build_polynomial_dataframe df 0 = df := rfl

/-- Claim C9, counterexample: `model.fit` mutates the injected model in
place.  With a model whose state counts its `fit` calls, a two-fold run ends
with state `2`, while the state before the call was `0`: the model object the
caller injected is not the same after `evaluate` returns. -/
theorem c9_counterexample :
    train_n_test cX4 cy4 (.int 2) none cModel cMetric false (List.range 4)
      = .ok ([5, 25], 2, [0]) ∧ cModel.state = 0 ∧ (2 : Nat) ≠ 0 :=
  ⟨rfl, rfl, by decide⟩

/-- Claim C9, amended: apart from log notices, `evaluate` leaves the feature
table and the target vector unchanged (it only reads them), but the injected
model is mutated: whenever the call returns normally, the model's final state
is the fold of the per-fold fit steps over the folds — the state left by
fitting on the last fold. -/
theorem c9_model_state_after {σ : Type} (X : DataFrame) (y : List Int) (k : Int)
    (u : Option Int) (model : Model σ) (metric : Metric) (sw : Bool) (perm : List Nat)
    (scores : List Int) (st : σ) (logs : List Nat)
    (h : train_n_test X y (.int k) u model metric sw perm = .ok (scores, st, logs)) :
    st = tnt_fit_states model sw X.values y (kfoldSplit perm y.length k.toNat) model.state := by
  by_cases hk : k < 2
  · simp [train_n_test, hk] at h
  · by_cases hl : (y.length : Int) < k
    · simp [train_n_test, hk, hl] at h
    · simp only [train_n_test, if_neg hk, if_neg hl] at h
      exact tnt_loop_state_of_ok model metric _ sw X.values y _ _ _ _ _ _ _ h

/-- Claim C9, witness for the amended theorem at a concrete two-fold run. -/
theorem c9_model_state_after_witness :
    (2 : Nat) = tnt_fit_states cModel false cX4.values cy4
      (kfoldSplit (List.range 4) cy4.length (Int.toNat 2)) cModel.state :=
  c9_model_state_after cX4 cy4 2 none cModel cMetric false (List.range 4) [5, 25] 2 [0] rfl

/-- Claim C10 (confirmed): `foldCount = 1` is an `int`, so it passes the
source's own assert, yet the call still fails — with the `ValueError` of
`KFold`, which requires `n_splits ≥ 2` — before any fold is processed; and
every integer `k` with `2 ≤ k ≤ len(y)` is accepted.  The accepted fold
counts are the integers at least 2, not all positive integers. -/
theorem c10_fold_count_at_least_two {σ : Type} (X : DataFrame) (y : List Int)
    (u : Option Int) (model : Model σ) (metric : Metric) (sw : Bool) (perm : List Nat) :
    train_n_test X y (.int 1) u model metric sw perm = .error (.valueError, model.state) ∧
    ∀ k : Int, 2 ≤ k → k ≤ (y.length : Int) →
      (train_n_test X y (.int k) u model metric sw perm).isOk = true := by
  constructor
  · rfl
  · intro k hk hl
    have h2 : 2 ≤ y.length := by omega
    obtain ⟨logs', hE⟩ := tnt_loop_ok_char model metric _ sw X.values y
      (effective_update_frequency_ne_zero u y.length h2)
      (kfoldSplit perm y.length k.toNat) [] model.state []
    simp only [train_n_test, if_neg (by omega : ¬ k < 2),
      if_neg (by omega : ¬ (y.length : Int) < k)]
    rw [hE]
    rfl

/-- Claim C10, witness: `foldCount = 1` is rejected, `foldCount = 2` is
accepted, on the same four-row data. -/
theorem c10_fold_count_at_least_two_witness :
    (train_n_test cX4 cy4 (.int 1) none cModel cMetric false (List.range 4)
      = .error (.valueError, cModel.state)) ∧
    (train_n_test cX4 cy4 (.int 2) none cModel cMetric false (List.range 4)).isOk = true :=
  ⟨(c10_fold_count_at_least_two cX4 cy4 none cModel cMetric false (List.range 4)).1,
   (c10_fold_count_at_least_two cX4 cy4 none cModel cMetric false (List.range 4)).2
     2 (by decide) (by decide)⟩
